import Mathlib

/-!
Verification development for the wallabag-tools repository
(wallabag_labeler.py and wallabag_paywall_archiver.py).

The Python sources are shallowly embedded: dictionaries become structures
with Option-typed fields (none models a JSON null or, where noted, a
missing key), network calls become oracle parameters (success/failure
booleans and pre-supplied response lists), and the per-entry processing
loops become structural recursions that also record the trace of mutation
requests issued.  Uncaught Python exceptions are modelled as an explicit
error result that carries the work done before the raise.
-/

set_option autoImplicit false
set_option maxRecDepth 16384

namespace WallabagTools

/-! ## Datetimes and calendar arithmetic

Models the naive-UTC view the labeler works with after it normalises
both datetimes to UTC (wallabag_labeler.py lines 375-385).  A datetime
is a calendar date plus the number of seconds elapsed in that day.
-/

structure DT where
  year : Int
  month : Nat
  day : Nat
  sod : Nat
  deriving DecidableEq

/-- Gregorian leap-year rule, as used by Python `calendar`/`datetime`. -/
def isLeap (y : Int) : Bool :=
  (y % 4 == 0 && y % 100 != 0) || (y % 400 == 0)

def daysInMonth (y : Int) (m : Nat) : Nat :=
  if m = 2 then (if isLeap y then 29 else 28)
  else if m = 4 ∨ m = 6 ∨ m = 9 ∨ m = 11 then 30
  else 31

/-- Lexicographic comparison of datetimes, as Python compares
naive `datetime` values componentwise. -/
def dtLt (a b : DT) : Bool :=
  if a.year < b.year then true
  else if b.year < a.year then false
  else if a.month < b.month then true
  else if b.month < a.month then false
  else if a.day < b.day then true
  else if b.day < a.day then false
  else decide (a.sod < b.sod)

/-- Shift a datetime by `k` calendar months, clamping the day to the
length of the target month — the month arithmetic performed by
`dateutil.relativedelta` when added to a datetime. -/
def addMonths (d : DT) (k : Int) : DT :=
  let t : Int := d.year * 12 + ((d.month : Int) - 1) + k
  let y : Int := Int.ediv t 12
  let m : Nat := (Int.emod t 12).toNat + 1
  ⟨y, m, min d.day (daysInMonth y m), d.sod⟩

/-- Successor day with month/year rollover. -/
def nextDay (d : DT) : DT :=
  if d.day < daysInMonth d.year d.month then ⟨d.year, d.month, d.day + 1, d.sod⟩
  else if d.month < 12 then ⟨d.year, d.month + 1, 1, d.sod⟩
  else ⟨d.year + 1, 1, 1, d.sod⟩

/-- Predecessor day with month/year rollover. -/
def prevDay (d : DT) : DT :=
  if 1 < d.day then ⟨d.year, d.month, d.day - 1, d.sod⟩
  else if 1 < d.month then ⟨d.year, d.month - 1, daysInMonth d.year (d.month - 1), d.sod⟩
  else ⟨d.year - 1, 12, 31, d.sod⟩

/-- `d + timedelta(days = n)`. -/
def addDaysDT : DT → Nat → DT
  | d, 0 => d
  | d, n + 1 => addDaysDT (nextDay d) n

/-- `d - timedelta(days = n)`. -/
def subDaysDT : DT → Nat → DT
  | d, 0 => d
  | d, n + 1 => subDaysDT (prevDay d) n

/-- Downward adjustment loop of `relativedelta.__init__`: while
`dt1 < dt2 + months` decrement `months` (case `dt1 >= dt2`).  The loop
runs at most once in practice; fuel 48 is far beyond what is reachable. -/
def rdDown : Nat → DT → DT → Int → Int
  | 0, _, _, m => m
  | fuel + 1, dt1, dt2, m =>
    if dtLt dt1 (addMonths dt2 m) then rdDown fuel dt1 dt2 (m - 1) else m

/-- Upward adjustment loop of `relativedelta.__init__` (case `dt1 < dt2`). -/
def rdUp : Nat → DT → DT → Int → Int
  | 0, _, _, m => m
  | fuel + 1, dt1, dt2, m =>
    if dtLt (addMonths dt2 m) dt1 then rdUp fuel dt1 dt2 (m + 1) else m

/-- Total signed month difference computed by
`dateutil.relativedelta.relativedelta(dt1, dt2)`: start from the naive
year*12+month estimate and adjust until `dt2` shifted by that many
months does not overshoot `dt1`. -/
def rdTotalMonths (dt1 dt2 : DT) : Int :=
  let est : Int := 12 * (dt1.year - dt2.year) + ((dt1.month : Int) - (dt2.month : Int))
  if dtLt dt1 dt2 then rdUp 48 dt1 dt2 est else rdDown 48 dt1 dt2 est

/-- The `years` component of the relativedelta (`_set_months`
normalisation: truncating division of the total months by 12). -/
def rdYears (tm : Int) : Int :=
  if 0 ≤ tm then Int.ediv tm 12 else -(Int.ediv (-tm) 12)

/-- The `months` component of the relativedelta (remainder after
removing whole years, carrying the sign of the total). -/
def rdMonths (tm : Int) : Int :=
  if 0 ≤ tm then Int.emod tm 12 else -(Int.emod (-tm) 12)

/-! ## Article data model (labeler) -/

structure Tag where
  id : Nat
  label : String
  deriving DecidableEq

/--
A catalog entry as seen by wallabag_labeler.py.  Option-typed fields:
`none` models a JSON null or a missing key (the code treats the two
alike in every place these fields are read, via `dict.get`).
`created_at` is `none` when the timestamp is missing, null, not a
string, or fails `datetime.fromisoformat`; a parsed timestamp is the
UTC-normalised datetime the code compares against `datetime.now(utc)`.
-/
structure Article where
  id : Option Nat
  pages : Option Int
  size : Option Int
  reading_time : Option Int
  tags : List Tag
  created_at : Option DT
  deriving DecidableEq

/-- Python truthiness of the `id` field: `if not article_id: continue`
skips both a missing id and the id 0. -/
def truthyId : Option Nat → Bool
  | none => false
  | some n => n ≠ 0

/-- `tag_names` (wallabag_labeler.py line 156): labels of the tag
dictionaries, dropping falsy (empty) labels. -/
def tagNames (a : Article) : List String :=
  (a.tags.filter (fun t => t.label ≠ "")).map (fun t => t.label)

/-- `current_tags` (wallabag_labeler.py line 389): labels of all tag
dictionaries, no falsiness filter. -/
def currentTags (a : Article) : List String :=
  a.tags.map (fun t => t.label)

/-- `tag_id_for_old` (wallabag_labeler.py lines 347-350): id of the
last tag labelled `old` (the loop overwrites on each match);
0 is a placeholder for the unreachable no-such-tag case. -/
def tagIdForOld (a : Article) : Nat :=
  ((a.tags.filter (fun t => t.label = ("old"))).getLast?).elim 0 (fun t => t.id)

/-! ## Quality classification (label_broken_articles, lines 160-177) -/

/--
The broken predicate of wallabag_labeler.py lines 164-177: three
independent rules, any match marks broken.  Python `None == 0` is
false, so a null/missing `pages` or `reading_time` never fires its
rule; the size rule explicitly requires a non-null size.
-/
def isBroken (a : Article) : Bool :=
  (a.pages == some 0) ||
  (match a.size with
   | some s => decide (s < 10 * 1024)
   | none => false) ||
  (a.reading_time == some 0)

/-- A mutation request issued against the catalog service by the
labeler: `POST /api/entries/id/tags` or
`DELETE /api/entries/id/tags/tagId`. -/
inductive MutCall where
  | postTag (id : Nat) (tag : String)
  | removeTag (id : Nat) (tagId : Nat)
  deriving DecidableEq

/--
One iteration of the label_broken_articles loop for a single article
(wallabag_labeler.py lines 146-203).  `postOk id` is the oracle for
the tag-POST succeeding.  Returns the increment of `labeled_count`
together with the mutation requests issued; a failed request is still
recorded in the trace (the call was made) but does not count.
-/
def brokenStep (dryRun : Bool) (postOk : Nat → Bool) (a : Article) : Nat × List MutCall :=
  if ¬ truthyId a.id then (0, [])
  else if ("broken") ∈ tagNames a then (0, [])
  else if isBroken a then
    if dryRun then (1, [])
    else if postOk (a.id.getD 0) then (1, [MutCall.postTag (a.id.getD 0) ("broken")])
    else (0, [MutCall.postTag (a.id.getD 0) ("broken")])
  else (0, [])

/-- label_broken_articles over a batch: sums the per-article counts and
concatenates the issued mutation requests in order. -/
def labelBroken (dryRun : Bool) (postOk : Nat → Bool) : List Article → Nat × List MutCall
  | [] => (0, [])
  | a :: rest =>
    let s := brokenStep dryRun postOk a
    let r := labelBroken dryRun postOk rest
    (s.1 + r.1, s.2 ++ r.2)

/-! ## Age classification -/

/--
The decision ladder of label_old_very_old_articles lines 394-401:
`relativedelta(now, created).years >= 1` gives very-old, otherwise
`.months >= 3` gives old, otherwise no age tag.
-/
def ageLabel (now created : DT) : Option String :=
  let tm := rdTotalMonths now created
  if 1 ≤ rdYears tm then some ("very-old")
  else if 3 ≤ rdMonths tm then some ("old")
  else none

/--
The per-article decision of label_old_very_old_articles, including its
skip conditions (lines 339-401): falsy id, missing/unparseable
`created_at`, and the already-very-old-without-old check; otherwise
the relativedelta ladder decides.
-/
def ovoDecision (now : DT) (a : Article) : Option String :=
  if ¬ truthyId a.id then none
  else
    match a.created_at with
    | none => none
    | some d =>
      if ("very-old") ∈ currentTags a ∧ ("old") ∉ currentTags a then none
      else ageLabel now d

/--
Result of one iteration of the label_old_very_old_articles loop:
either the increments of `labeled_old_count` and
`labeled_very_old_count` plus the mutation requests issued, or an
uncaught exception (`Except.error`, carrying the requests issued
before the raise).  The exception arises because the DELETE that
removes the `old` tag (lines 411-414) sits outside the try block: a
failing response makes `raise_for_status` propagate.
-/
def ovoStep (now : DT) (dryRun : Bool) (postOk : Nat → String → Bool)
    (deleteOk : Nat → Bool) (a : Article) :
    Except (List MutCall) (Nat × Nat × List MutCall) :=
  match ovoDecision now a with
  | none => Except.ok (0, 0, [])
  | some l =>
    if dryRun then
      Except.ok ((if l = ("old") then 1 else 0), (if l = ("very-old") then 1 else 0), [])
    else
      let aid := a.id.getD 0
      if l = ("very-old") ∧ ("old") ∈ currentTags a then
        if deleteOk aid then
          if postOk aid l then
            Except.ok (0, 1, [MutCall.removeTag aid (tagIdForOld a), MutCall.postTag aid l])
          else
            Except.ok (0, 0, [MutCall.removeTag aid (tagIdForOld a), MutCall.postTag aid l])
        else
          Except.error [MutCall.removeTag aid (tagIdForOld a)]
      else
        if postOk aid l then
          Except.ok ((if l = ("old") then 1 else 0), (if l = ("very-old") then 1 else 0),
            [MutCall.postTag aid l])
        else
          Except.ok (0, 0, [MutCall.postTag aid l])

/--
Outcome of a label_old_very_old_articles run.  `ret` is the value the
Python function returns: `some 0` on normal exit (the returned
`labeled_count` variable is never incremented in the source), `none`
when the unprotected DELETE raised and the exception propagated out of
the function.  `labeledOld`/`labeledVeryOld` are the internal counters
the function does maintain; `calls` is the ordered trace of mutation
requests issued.
-/
structure OVOOut where
  ret : Option Nat
  labeledOld : Nat
  labeledVeryOld : Nat
  calls : List MutCall
  deriving DecidableEq

/-- label_old_very_old_articles over a batch (lines 316-449): per-article
steps accumulate; an uncaught exception stops processing of the
remaining articles. -/
def labelOldVeryOld (now : DT) (dryRun : Bool) (postOk : Nat → String → Bool)
    (deleteOk : Nat → Bool) : List Article → OVOOut
  | [] => ⟨some 0, 0, 0, []⟩
  | a :: rest =>
    match ovoStep now dryRun postOk deleteOk a with
    | Except.error cs => ⟨none, 0, 0, cs⟩
    | Except.ok (o, v, cs) =>
      let r := labelOldVeryOld now dryRun postOk deleteOk rest
      ⟨r.ret, o + r.labeledOld, v + r.labeledVeryOld, cs ++ r.calls⟩

/--
The age test of the simpler label_old_articles variant (lines 251,
285): strictly before `utcnow() - timedelta(days = 90)`.
-/
def oldSimpleDecision (now created : DT) : Bool :=
  dtLt created (subDaysDT now 90)

/-! ## Paginated fetchers

A page response from `GET /api/entries.json` is either a transport or
decode failure, or a decoded body: `embedded = none` models a body
lacking the `_embedded`/`items` container, and the `page`/`pages`
fields are the pagination info the service reports (`none` models a
missing key; Python truthiness also discards 0).
-/

inductive FetchResp (α : Type) where
  | fail : FetchResp α
  | ok (embedded : Option (List α)) (page : Option Nat) (pages : Option Nat) : FetchResp α
  deriving DecidableEq

/-- Python truthiness of an optional number: missing/None and 0 are falsy. -/
def truthyN (o : Option Nat) : Bool :=
  o.getD 0 ≠ 0

/--
The fetch loop of wallabag_labeler.get_all_articles (lines 73-122):
consumes the page responses in order, accumulating items and the
number of requests made.  On a transport or decode failure the except
handlers return the empty list, discarding everything accumulated.
The loop continues only while the reported `page` and `pages` are
truthy and `page < pages`.  (The empty-responses case is a model
artifact: a real server answers every request.)
-/
def labGo {α : Type} : List (FetchResp α) → List α → Nat → List α × Nat
  | [], acc, k => (acc, k)
  | r :: rest, acc, k =>
    match r with
    | FetchResp.fail => ([], k + 1)
    | FetchResp.ok none _ _ => (acc, k + 1)
    | FetchResp.ok (some items) p t =>
      if items.isEmpty then (acc, k + 1)
      else if truthyN p && truthyN t && decide (p.getD 0 < t.getD 0) then
        labGo rest (acc ++ items) (k + 1)
      else (acc ++ items, k + 1)

/-- get_all_articles: returns the articles plus the number of page
requests performed. -/
def getAllArticles {α : Type} (resps : List (FetchResp α)) : List α × Nat :=
  labGo resps [] 0

/--
The fetch loop of wallabag_paywall_archiver.get_unread_articles
(lines 71-91): extends the accumulator, then breaks when the page is
empty or the local page counter reaches `data.get("pages", 0)`; on a
transport or decode failure it breaks and keeps what it accumulated.
-/
def archGo {α : Type} : List (FetchResp α) → List α → Nat → List α × Nat
  | [], acc, k => (acc, k)
  | r :: rest, acc, k =>
    match r with
    | FetchResp.fail => (acc, k + 1)
    | FetchResp.ok none _ _ => (acc, k + 1)
    | FetchResp.ok (some items) _ t =>
      if items.isEmpty || decide (t.getD 0 ≤ k + 1) then (acc ++ items, k + 1)
      else archGo rest (acc ++ items) (k + 1)

/-- get_unread_articles: articles plus number of page requests. -/
def getUnreadArticles {α : Type} (resps : List (FetchResp α)) : List α × Nat :=
  archGo resps [] 0

/-- Condition under which get_all_articles proceeds to the next page
after a response (container present, page non-empty, truthy pagination
info with `page < pages`). -/
def labContinues {α : Type} : FetchResp α → Bool
  | FetchResp.fail => false
  | FetchResp.ok none _ _ => false
  | FetchResp.ok (some items) p t =>
    !items.isEmpty && (truthyN p && truthyN t && decide (p.getD 0 < t.getD 0))

/-! ## Archive-replacement workflow (wallabag_paywall_archiver.py) -/

/--
A catalog entry as the archiver reads it: `dict.get` results for
`url`, `origin_url`, `id`, `reading_time` (`none` = missing or null;
for `reading_time` the archiver reads `get('reading_time', 0)`, so a
missing key behaves as `some 0`).
-/
structure AArticle where
  id : Option Nat
  url : Option String
  origin_url : Option String
  reading_time : Option Int
  deriving DecidableEq

/-- The three mutating/refetching operations of process_articles:
`POST /api/entries.json`, the catalog re-fetch, and
`DELETE /api/entries/id.json`. -/
inductive AAction where
  | addEntry (url : String)
  | refetch
  | deleteEntry (id : Option Nat)
  deriving DecidableEq

/-- Locate the re-added entry in the re-fetched catalog: first entry
whose `url` or `origin_url` equals the archive URL exactly
(process_articles line 197). -/
def locateNew (refetched : List AArticle) (archiveUrl : String) : Option AArticle :=
  refetched.find? (fun a => a.url == some archiveUrl || a.origin_url == some archiveUrl)

/--
The re-add / verify / delete tail of process_articles (lines 194-201)
for one candidate article with its computed archive URL.  `addOk` is
the oracle for add_article_to_wallabag succeeding, `refetched` the
catalog returned by the verification re-fetch.  Returns the ordered
trace of add/refetch/delete operations; in dry-run mode the whole
block is skipped.  A null `reading_time` on the located entry is
modelled as not exceeding the threshold (either way no DELETE is
issued).
-/
def processCandidate (a : AArticle) (archiveUrl : String) (dryRun : Bool)
    (addOk : Bool) (refetched : List AArticle) : List AAction :=
  if dryRun then []
  else
    AAction.addEntry archiveUrl ::
      (if addOk then
        AAction.refetch ::
          (match locateNew refetched archiveUrl with
           | some ni => if 2 < ni.reading_time.getD 0 then [AAction.deleteEntry a.id] else []
           | none => [])
      else [])

/-- `hostname.endswith(h)`: plain string-suffix test on the character
sequence, as Python `str.endswith`. -/
def pyEndsWith (s suffix : String) : Bool :=
  List.isSuffixOf suffix.data s.data

/-- The paywall-candidate host check of process_articles line 178:
`any(hostname.endswith(h) for h in paywall_hosts)`. -/
def hostIsPaywalled (paywallHosts : List String) (hostname : String) : Bool :=
  paywallHosts.any (fun h => pyEndsWith hostname h)

/-- DEFAULT_PAYWALLED_HOSTS of wallabag_paywall_archiver.py. -/
def DEFAULT_PAYWALLED_HOSTS : List String :=
  [("wsj.com"), ("ft.com"), ("bloomberg.com"), ("nytimes.com"),
   ("washingtonpost.com"), ("economist.com")]

/-! ## Helper lemmas -/

/-- The request counter of the labeler fetch loop never decreases. -/
theorem labGo_ge {α : Type} (l : List (FetchResp α)) (acc : List α) (k : Nat) :
    k ≤ (labGo l acc k).2 := by
  induction l generalizing acc k with
  | nil => simp [labGo]
  | cons r rest ih =>
    cases r with
    | fail => simp [labGo]
    | ok emb p t =>
      cases emb with
      | none => simp [labGo]
      | some items =>
        simp only [labGo]
        split_ifs
        · simp
        · exact le_trans (Nat.le_succ k) (ih (acc ++ items) (k + 1))
        · simp

/-- Consuming at least one response strictly increases the counter. -/
theorem labGo_cons_ge {α : Type} (r : FetchResp α) (rest : List (FetchResp α))
    (acc : List α) (k : Nat) : k + 1 ≤ (labGo (r :: rest) acc k).2 := by
  cases r with
  | fail => simp [labGo]
  | ok emb p t =>
    cases emb with
    | none => simp [labGo]
    | some items =>
      simp only [labGo]
      split_ifs
      · simp
      · exact labGo_ge rest (acc ++ items) (k + 1)
      · simp

/-- If every response in `pre` lets the labeler fetch loop continue and
the next response is a failure, the loop returns the empty list after
`pre.length + 1` requests, discarding the accumulator. -/
theorem labGo_fail_chain {α : Type} (pre rest : List (FetchResp α)) (acc : List α)
    (k : Nat) (h : ∀ r ∈ pre, labContinues r = true) :
    labGo (pre ++ FetchResp.fail :: rest) acc k = ([], k + (pre.length + 1)) := by
  induction pre generalizing acc k with
  | nil => simp [labGo]
  | cons r pre ih =>
    have hr : labContinues r = true := h r (List.mem_cons_self r pre)
    have hpre : ∀ x ∈ pre, labContinues x = true := fun x hx => h x (List.mem_cons_of_mem r hx)
    cases r with
    | fail => simp [labContinues] at hr
    | ok emb p t =>
      cases emb with
      | none => simp [labContinues] at hr
      | some items =>
        simp only [labContinues, Bool.and_eq_true, Bool.not_eq_true'] at hr
        obtain ⟨h1, h23, h4⟩ := hr
        simp [labGo, h1, h23.1, h23.2, h4, ih (acc ++ items) (k + 1) hpre]
        omega

/-- Live-mode broken step with an all-success oracle agrees with the
dry-run step on the count; the dry-run step issues no request. -/
theorem brokenStep_dry (ok : Nat → Bool) (a : Article) :
    brokenStep true ok a = ((brokenStep false (fun _ => true) a).1, []) := by
  unfold brokenStep
  by_cases h1 : truthyId a.id = true
  · by_cases h2 : ("broken") ∈ tagNames a
    · simp [h1, h2]
    · by_cases h3 : isBroken a = true
      · simp [h1, h2, h3]
      · simp [h1, h2, h3]
  · simp [h1]

/-- Live-mode ladder step with all-success oracles succeeds, and the
dry-run step produces the same counter increments with no requests. -/
theorem ovoStep_dry (now : DT) (p : Nat → String → Bool) (d : Nat → Bool) (a : Article) :
    ∃ o v cs, ovoStep now false (fun _ _ => true) (fun _ => true) a = Except.ok (o, v, cs) ∧
      ovoStep now true p d a = Except.ok (o, v, []) := by
  unfold ovoStep
  cases h : ovoDecision now a with
  | none => exact ⟨0, 0, [], rfl, rfl⟩
  | some l =>
    by_cases hl : l = ("very-old") ∧ ("old") ∈ currentTags a
    · refine ⟨0, 1, [MutCall.removeTag (a.id.getD 0) (tagIdForOld a),
        MutCall.postTag (a.id.getD 0) l], ?_, ?_⟩
      · simp [hl]
      · have hne : l ≠ ("old") := by rw [hl.1]; decide
        simp [hl.1, hne]
    · refine ⟨(if l = ("old") then 1 else 0), (if l = ("very-old") then 1 else 0),
        [MutCall.postTag (a.id.getD 0) l], ?_, ?_⟩
      · simp [hl]
      · simp

/-! ## Claim theorems -/

/--
C1: in the non-dry-run archive-replacement workflow, the original
entry is deleted exactly when the re-add succeeded, the re-fetched
catalog contains an entry whose url or origin_url equals the archive
URL, and that entry has reading_time above the threshold 2; the
verification re-fetch itself happens exactly when the re-add
succeeded.  In every other case no delete request is issued.
-/
theorem C1_delete_only_after_verification (a : AArticle) (url : String) (addOk : Bool)
    (refetched : List AArticle) :
    (AAction.deleteEntry a.id ∈ processCandidate a url false addOk refetched ↔
      addOk = true ∧ ∃ ni, locateNew refetched url = some ni ∧ 2 < ni.reading_time.getD 0) ∧
    (AAction.refetch ∈ processCandidate a url false addOk refetched ↔ addOk = true) := by
  unfold processCandidate
  cases addOk with
  | false => simp
  | true =>
    cases h : locateNew refetched url with
    | none => simp [h]
    | some ni =>
      by_cases hrt : 2 < ni.reading_time.getD 0
      · simp [h, hrt]
      · simp [h, hrt]

/--
C3: quality classification marks an entry broken exactly when
pages = 0, or size is non-null and below 10240 bytes, or
reading_time = 0; a null field never triggers its rule, and an entry
whose three fields all exceed the thresholds is never marked broken.
-/
theorem C3_broken_iff (a : Article) :
    isBroken a = true ↔
      (a.pages = some 0 ∨ (∃ s, a.size = some s ∧ s < 10 * 1024) ∨ a.reading_time = some 0) := by
  rcases a with ⟨i, pg, sz, rt, tg, ca⟩
  unfold isBroken
  cases pg <;> cases sz <;> cases rt <;> simp [or_assoc]

/--
C10: the paywall-candidate host check is a plain character-sequence
suffix match: any configured host that is a string suffix of the URL
hostname marks the entry paywalled, including hostnames where the host
is not a whole domain label, as the hostname notwsj.com matched by the
configured host wsj.com (which is neither equal to it nor one of its
subdomains) shows.
-/
theorem C10_host_suffix_match :
    (∀ (hosts : List String) (hostname h : String), h ∈ hosts →
       pyEndsWith hostname h = true → hostIsPaywalled hosts hostname = true) ∧
    hostIsPaywalled DEFAULT_PAYWALLED_HOSTS ("notwsj.com") = true ∧
    pyEndsWith ("notwsj.com") (".wsj.com") = false ∧
    ("notwsj.com" : String) ≠ ("wsj.com") := by
  refine ⟨?_, by decide, by decide, by decide⟩
  intro hosts hostname h hmem hsuf
  unfold hostIsPaywalled
  exact List.any_eq_true.mpr ⟨h, hmem, hsuf⟩

/--
C10 witness: a genuine subdomain of a configured default host passes
the check.
-/
theorem C10_witness : hostIsPaywalled DEFAULT_PAYWALLED_HOSTS ("a.wsj.com") = true :=
  C10_host_suffix_match.1 DEFAULT_PAYWALLED_HOSTS ("a.wsj.com") ("wsj.com")
    (by decide) (by decide)

/--
C2 counterexample: an untagged entry created exactly 90 days before
the current instant (2025-07-14 versus 2025-10-12, both midnight UTC)
receives no age tag from the ladder, because the relativedelta between
the two dates is only 2 months 28 days; the claim says the 90-day
boundary is classified old.  The simpler label_old_articles variant
also rejects it, since its comparison is strictly before
now - 90 days.
-/
theorem C2_counterexample :
    addDaysDT ⟨2025, 7, 14, 0⟩ 90 = (⟨2025, 10, 12, 0⟩ : DT) ∧
    ovoDecision ⟨2025, 10, 12, 0⟩
      ⟨some 1, none, none, none, [], some ⟨2025, 7, 14, 0⟩⟩ = none ∧
    ageLabel ⟨2025, 10, 12, 0⟩ ⟨2025, 7, 14, 0⟩ = none ∧
    oldSimpleDecision ⟨2025, 10, 12, 0⟩ ⟨2025, 7, 14, 0⟩ = false := by
  decide

/--
C2 amended: age classification follows the ladder measured in calendar
units by relativedelta, not in fixed 90-day blocks: for every entry
with a parseable created_at that passes the skip checks, the decision
is very-old exactly when the relativedelta years component is at least
1, old exactly when it is not and the months component is at least 3,
and no tag otherwise.  An entry created exactly 3 calendar months ago
is old; one created exactly 90 days ago may fall short of 3 calendar
months and then gets no tag; one created exactly 1 year ago is
very-old, and when old is currently present the very-old labeling is
accompanied by a removal request for old.
-/
theorem C2_amended_calendar_ladder :
    (∀ (now : DT) (a : Article) (d : DT), truthyId a.id = true → a.created_at = some d →
       ¬(("very-old") ∈ currentTags a ∧ ("old") ∉ currentTags a) →
       ovoDecision now a = ageLabel now d) ∧
    (∀ now d : DT, ageLabel now d = some ("very-old") ↔ 1 ≤ rdYears (rdTotalMonths now d)) ∧
    (∀ now d : DT, ageLabel now d = some ("old") ↔
       (¬ 1 ≤ rdYears (rdTotalMonths now d) ∧ 3 ≤ rdMonths (rdTotalMonths now d))) ∧
    ovoDecision ⟨2025, 10, 12, 0⟩
      ⟨some 4, none, none, none, [], some ⟨2025, 7, 12, 0⟩⟩ = some ("old") ∧
    labelOldVeryOld ⟨2025, 10, 12, 0⟩ false (fun _ _ => true) (fun _ => true)
      [⟨some 9, none, none, none, [⟨7, ("old")⟩], some ⟨2024, 10, 12, 0⟩⟩] =
      ⟨some 0, 0, 1, [MutCall.removeTag 9 7, MutCall.postTag 9 ("very-old")]⟩ := by
  refine ⟨?_, ?_, ?_, by decide, by decide⟩
  · intro now a d hid hc hskip
    unfold ovoDecision
    rw [hc, hid]
    simp [hskip]
  · intro now d
    unfold ageLabel
    by_cases h1 : 1 ≤ rdYears (rdTotalMonths now d)
    · simp [h1]
    · by_cases h2 : 3 ≤ rdMonths (rdTotalMonths now d)
      · have hne : ("old" : String) ≠ ("very-old") := by decide
        simp [h1, h2, hne]
      · simp [h1, h2]
  · intro now d
    unfold ageLabel
    by_cases h1 : 1 ≤ rdYears (rdTotalMonths now d)
    · have hne : ("very-old" : String) ≠ ("old") := by decide
      simp [h1, hne]
    · by_cases h2 : 3 ≤ rdMonths (rdTotalMonths now d)
      · simp [h1, h2]
      · simp [h1, h2]

/--
C2 witness: for a concrete untagged entry with a parseable timestamp,
the per-entry decision agrees with the relativedelta ladder.
-/
theorem C2_witness :
    ovoDecision ⟨2025, 10, 12, 0⟩
      ⟨some 4, none, none, none, [], some ⟨2025, 7, 12, 0⟩⟩ =
      ageLabel ⟨2025, 10, 12, 0⟩ ⟨2025, 7, 12, 0⟩ :=
  C2_amended_calendar_ladder.1 ⟨2025, 10, 12, 0⟩
    ⟨some 4, none, none, none, [], some ⟨2025, 7, 12, 0⟩⟩ ⟨2025, 7, 12, 0⟩
    (by decide) (by decide) (by decide)

/--
C4 counterexample: the labeler fetcher get_all_articles, given a
successful first page holding one entry and a transport failure on
page 2, returns the empty list, not the entries accumulated from
page 1 as the claim states.
-/
theorem C4_counterexample :
    getAllArticles [FetchResp.ok (some [101]) (some 1) (some 3), FetchResp.fail] =
      (([] : List Nat), 2) ∧
    ([101] : List Nat) ≠ [] := by
  decide

/--
C4 amended: on a transport or decode failure at page N neither fetcher
retries: the labeler fetcher get_all_articles aborts after the N-th
request and returns the empty list, discarding the entries of pages
1..N-1, while the archiver fetcher get_unread_articles returns exactly
the accumulated entries.
-/
theorem C4_amended_failure_result :
    (∀ (pre rest : List (FetchResp Nat)), (∀ r ∈ pre, labContinues r = true) →
       getAllArticles (pre ++ FetchResp.fail :: rest) = ([], pre.length + 1)) ∧
    getUnreadArticles [FetchResp.ok (some ([101] : List Nat)) (some 1) (some 3),
      FetchResp.fail] = ([101], 2) := by
  constructor
  · intro pre rest h
    have hc := labGo_fail_chain pre rest [] 0 h
    simpa [getAllArticles] using hc
  · decide

/--
C4 witness: a page-2 failure after one full page yields the empty list
and exactly two requests from the labeler fetcher.
-/
theorem C4_witness :
    getAllArticles ([FetchResp.ok (some [101]) (some 1) (some 3),
      FetchResp.fail] : List (FetchResp Nat)) = ([], 2) := by
  have h := C4_amended_failure_result.1 [FetchResp.ok (some [101]) (some 1) (some 3)] []
    (by decide)
  simpa using h

/--
C5: evaluation at the failing input.  In a live ladder run over two
eligible entries, when the DELETE that removes the old tag from the
first entry fails, the run ends with an uncaught exception
(ret = none): the counters stay 0, the trace stops at the failed
DELETE, and the second entry is never processed — the batch is
aborted, contradicting the claim that every mutation failure is
recovered locally.  With the DELETE succeeding, the same batch runs to
completion, isolating the unprotected raise_for_status as the cause.
-/
theorem C5_remove_old_failure_aborts :
    labelOldVeryOld ⟨2025, 10, 12, 0⟩ false (fun _ _ => true) (fun _ => false)
      [⟨some 1, none, none, none, [⟨7, ("old")⟩], some ⟨2023, 10, 12, 0⟩⟩,
       ⟨some 2, none, none, none, [], some ⟨2023, 10, 12, 0⟩⟩] =
      ⟨none, 0, 0, [MutCall.removeTag 1 7]⟩ ∧
    labelOldVeryOld ⟨2025, 10, 12, 0⟩ false (fun _ _ => true) (fun _ => true)
      [⟨some 1, none, none, none, [⟨7, ("old")⟩], some ⟨2023, 10, 12, 0⟩⟩,
       ⟨some 2, none, none, none, [], some ⟨2023, 10, 12, 0⟩⟩] =
      ⟨some 0, 0, 2, [MutCall.removeTag 1 7, MutCall.postTag 1 ("very-old"),
        MutCall.postTag 2 ("very-old")]⟩ := by
  decide

/--
C6: evaluation at the failing input.  A live ladder run over one entry
that is successfully labelled very-old performs one successful
mutation (the internal very-old counter reaches 1), yet the value the
function returns is 0, because the returned labeled_count variable is
never incremented; the claim says the returned value equals the number
of mutations performed.
-/
theorem C6_ladder_returns_zero :
    labelOldVeryOld ⟨2025, 10, 12, 0⟩ false (fun _ _ => true) (fun _ => true)
      [⟨some 3, none, none, none, [], some ⟨2023, 10, 12, 0⟩⟩] =
      ⟨some 0, 0, 1, [MutCall.postTag 3 ("very-old")]⟩ ∧
    (0 : Nat) ≠ 0 + 1 := by
  decide

/--
C7: dry-run frame property.  For any batch and any oracles, dry-run
label_broken_articles issues no mutation requests and reports the same
count as a live run in which every mutation succeeds; dry-run
label_old_very_old_articles issues no mutation requests, returns
normally, and its internal counters match the all-success live run;
and the archive-replacement tail performs no re-add, no re-fetch and
no delete in dry-run.
-/
theorem C7_dry_run_no_mutations :
    (∀ (ok : Nat → Bool) (arts : List Article),
       labelBroken true ok arts = ((labelBroken false (fun _ => true) arts).1, [])) ∧
    (∀ (now : DT) (p : Nat → String → Bool) (d : Nat → Bool) (arts : List Article),
       labelOldVeryOld now true p d arts =
         ⟨some 0, (labelOldVeryOld now false (fun _ _ => true) (fun _ => true) arts).labeledOld,
          (labelOldVeryOld now false (fun _ _ => true) (fun _ => true) arts).labeledVeryOld,
          []⟩) ∧
    (∀ (a : AArticle) (url : String) (addOk : Bool) (refetched : List AArticle),
       processCandidate a url true addOk refetched = []) := by
  refine ⟨?_, ?_, ?_⟩
  · intro ok arts
    induction arts with
    | nil => rfl
    | cons a rest ih => simp [labelBroken, brokenStep_dry, ih]
  · intro now p d arts
    induction arts with
    | nil => rfl
    | cons a rest ih =>
      obtain ⟨o, v, cs, hlive, hdry⟩ := ovoStep_dry now p d a
      simp [labelOldVeryOld, hlive, hdry, ih]
  · intro a url addOk refetched
    rfl

/--
C8 counterexample: an entry already tagged old, created 6 months
before the current instant, is re-processed by a live ladder run and
receives another POST for the tag old — the check for a tag that is
already present is not skipped for old, so the entry is
double-processed, contrary to the claim.
-/
theorem C8_counterexample :
    ("old") ∈ currentTags
      (⟨some 5, none, none, none, [⟨7, ("old")⟩], some ⟨2025, 4, 12, 0⟩⟩ : Article) ∧
    labelOldVeryOld ⟨2025, 10, 12, 0⟩ false (fun _ _ => true) (fun _ => true)
      [⟨some 5, none, none, none, [⟨7, ("old")⟩], some ⟨2025, 4, 12, 0⟩⟩] =
      ⟨some 0, 1, 0, [MutCall.postTag 5 ("old")]⟩ := by
  decide

/--
C8 amended: the skip-if-already-tagged guard holds for the broken tag
(an entry tagged broken is skipped by the broken check and gets no
request) and, in the ladder, only for entries tagged very-old without
old (such entries are skipped entirely); an entry tagged only old that
still classifies as old is re-processed and receives a duplicate POST
of the old tag.
-/
theorem C8_amended_skip_guards :
    (∀ (dr : Bool) (ok : Nat → Bool) (a : Article), ("broken") ∈ tagNames a →
       brokenStep dr ok a = (0, [])) ∧
    (∀ (now : DT) (dr : Bool) (p : Nat → String → Bool) (d : Nat → Bool) (a : Article),
       ("very-old") ∈ currentTags a → ("old") ∉ currentTags a →
       ovoStep now dr p d a = Except.ok (0, 0, [])) := by
  constructor
  · intro dr ok a h
    unfold brokenStep
    by_cases h1 : truthyId a.id = true
    · simp [h1, h]
    · simp [h1]
  · intro now dr p d a h1 h2
    have hdec : ovoDecision now a = none := by
      unfold ovoDecision
      cases hca : a.created_at with
      | none => simp [hca]
      | some dd => simp [hca, h1, h2]
    simp [ovoStep, hdec]

/--
C8 witness: a broken-tagged entry and a very-old-tagged entry are both
skipped with no mutation request.
-/
theorem C8_witness :
    brokenStep false (fun _ => true)
      (⟨some 1, some 0, none, none, [⟨2, ("broken")⟩], none⟩ : Article) = (0, []) ∧
    ovoStep ⟨2025, 10, 12, 0⟩ false (fun _ _ => true) (fun _ => true)
      (⟨some 6, none, none, none, [⟨3, ("very-old")⟩], some ⟨2020, 1, 1, 0⟩⟩ : Article) =
      Except.ok (0, 0, []) :=
  ⟨C8_amended_skip_guards.1 false (fun _ => true) _ (by decide),
   C8_amended_skip_guards.2 ⟨2025, 10, 12, 0⟩ false (fun _ _ => true) (fun _ => true) _
     (by decide) (by decide)⟩

/--
C9: both fetchers start at page 1 and, on the two-page scenario where
page 1 reports page=1, pages=2 and page 2 reports page=2, pages=2,
perform exactly two requests and return the concatenation of the two
pages in order.  In general the labeler fetcher stops after a
non-failing response exactly when the page is empty, the item
container is missing, or the reported pagination (with both fields
present and nonzero) satisfies current_page >= total_pages.
-/
theorem C9_pagination_termination :
    getAllArticles [FetchResp.ok (some [1]) (some 1) (some 2),
      FetchResp.ok (some [2]) (some 2) (some 2)] = ([1, 2], 2) ∧
    getUnreadArticles [FetchResp.ok (some [1]) (some 1) (some 2),
      FetchResp.ok (some [2]) (some 2) (some 2)] = ([1, 2], 2) ∧
    (∀ (items : List Nat) (p t : Nat) (r2 : FetchResp Nat) (rest : List (FetchResp Nat)),
       p ≠ 0 → t ≠ 0 → items ≠ [] →
       ((getAllArticles (FetchResp.ok (some items) (some p) (some t) :: r2 :: rest)).2 = 1 ↔
         t ≤ p)) ∧
    (∀ (p t : Option Nat) (r2 : FetchResp Nat) (rest : List (FetchResp Nat)),
       (getAllArticles (FetchResp.ok (none : Option (List Nat)) p t :: r2 :: rest)).2 = 1) ∧
    (∀ (p t : Option Nat) (r2 : FetchResp Nat) (rest : List (FetchResp Nat)),
       (getAllArticles (FetchResp.ok (some ([] : List Nat)) p t :: r2 :: rest)).2 = 1) := by
  refine ⟨by decide, by decide, ?_, ?_, ?_⟩
  · intro items p t r2 rest hp ht hitem
    have hne : items.isEmpty = false := by
      cases items with
      | nil => exact absurd rfl hitem
      | cons x xs => rfl
    by_cases hlt : p < t
    · have hgo : (getAllArticles (FetchResp.ok (some items) (some p) (some t) ::
          r2 :: rest)).2 = (labGo (r2 :: rest) items 1).2 := by
        simp [getAllArticles, labGo, hne, truthyN, hp, ht, hlt]
      have h2 : 2 ≤ (labGo (r2 :: rest) items 1).2 := labGo_cons_ge r2 rest items 1
      rw [hgo]
      constructor
      · intro hc
        omega
      · intro hle
        omega
    · have hgo : (getAllArticles (FetchResp.ok (some items) (some p) (some t) ::
          r2 :: rest)).2 = 1 := by
        simp [getAllArticles, labGo, hne, truthyN, hp, ht, hlt]
      rw [hgo]
      simp
      omega
  · intro p t r2 rest
    rfl
  · intro p t r2 rest
    simp [getAllArticles, labGo]

/--
C9 witness: a first page whose reported current page equals the
reported total pages makes the labeler fetcher stop after exactly one
request.
-/
theorem C9_witness :
    (getAllArticles [FetchResp.ok (some [7]) (some 2) (some 2), FetchResp.fail]).2 = 1 ↔
      (2 : Nat) ≤ 2 :=
  C9_pagination_termination.2.2.1 [7] 2 2 FetchResp.fail [] (by decide) (by decide) (by decide)

end WallabagTools
